import Mathlib

set_option autoImplicit false

/-!
Shallow embedding of the Multi-Tenant-Admin-Panel server (server.js).

The repository ships two server variants in server.js: a shared-key-gated
variant (the `gate` middleware, query-parameter tenancy) and a session-based
variant (JWT cookie sessions, `resolveAdminTenant`, `requireAuth`).  Both
share the in-memory per-tenant state (`stateByTenant`, `getTenantState`) and
the write helpers `addEvent`, `addError`, `addUsage`, `addMetric`,
`addConversation`.

JavaScript conventions are made explicit: an absent or undefined field is
`Option.none`; JS truthiness (empty string and 0 are falsy) is modelled by
the `truthyStr` / `truthyInt` helpers; the nullish-coalescing operator is
`jsCoalesce`; ISO timestamp strings are modelled by the numeric clock value
`now : Nat` that produced them.
-/

namespace AdminPanel

/-- Truthiness of a JS string-or-undefined value: undefined and "" are falsy. -/
def truthyStr : Option String → Bool
  | some s => if s = "" then false else true
  | none => false

/-- JS `a || d` for a string-or-undefined `a` and string default `d`. -/
def jsOrStr (a : Option String) (d : String) : String :=
  match a with
  | some s => if s = "" then d else s
  | none => d

/-- Truthiness of a JS number-or-undefined value: undefined and 0 are falsy. -/
def truthyInt : Option Int → Bool
  | some v => if v = 0 then false else true
  | none => false

/-- JS `a || d` for a number-or-undefined `a` and numeric default `d`. -/
def jsOrInt (a : Option Int) (d : Int) : Int :=
  match a with
  | some v => if v = 0 then d else v
  | none => d

/-- JS nullish coalescing `a ?? b` on number-or-undefined values. -/
def jsCoalesce (a b : Option Int) : Option Int :=
  match a with
  | some v => some v
  | none => b

/-- Event record pushed by addEvent: `{ at, role: role || "sys", message: message || "" }`.
The ISO timestamp string is modelled by the numeric clock value. -/
structure EventRec where
  at_ : Nat
  role : String
  message : String
deriving DecidableEq, Repr

/-- Error record pushed by addError: `{ at, user, message: message || "error" }`. -/
structure ErrorRec where
  at_ : Nat
  user : Option String
  message : String
deriving DecidableEq, Repr

/-- Normalized usage breakdown stored by addUsage (exactly these four keys). -/
structure Breakdown where
  promptUSD : Int
  completionUSD : Int
  cachedUSD : Int
  total : Int
deriving DecidableEq, Repr

/-- Normalized usage record stored by addUsage. -/
structure UsageRec where
  at_ : Nat
  model : Option String
  prompt_tokens : Int
  completion_tokens : Int
  cached_tokens : Int
  user : Option String
  costUSD : Int
  breakdown : Breakdown
deriving DecidableEq, Repr

/-- Current-usage slot of the tenant state.  Its initial shape
`{ period: Current, tokens: 0, costUSD: 0, model: null, user: null }` differs
from the shape written by addUsage (`{ ...normalized, period: Current }`),
so the slot is a sum of the two shapes. -/
inductive UsageCurrent where
  | init
  | record (r : UsageRec)
deriving DecidableEq, Repr

/-- Payload carried by a lead metric, as consumed by the premium endpoint
(`m.value.email`, `m.value.phone`, `m.value.tags`). -/
structure LeadVal where
  email : Option String
  phone : Option String
  tags : Option (List String)
deriving DecidableEq, Repr

/-- Value of a metric record: a plain number (latency samples, success marks)
or a lead object. -/
inductive MetricVal where
  | num (n : Int)
  | lead (l : LeadVal)
deriving DecidableEq, Repr

/-- JS truthiness of a metric value: undefined and 0 are falsy, objects are truthy. -/
def truthyMetricVal : Option MetricVal → Bool
  | some (.num n) => if n = 0 then false else true
  | some (.lead _) => true
  | none => false

/-- Metric record pushed by addMetric: `{ at, type, value }`. -/
structure MetricRec where
  at_ : Nat
  type : Option String
  value : Option MetricVal
deriving DecidableEq, Repr

/-- Conversation payload (the `data` argument of addConversation); the fields
the premium endpoint later reads.  A present `at` field in the payload
overrides the write timestamp because the spread `{ at: now, ...data }`
puts `data` last. -/
structure ConvData where
  at_ : Option Nat
  name : Option String
  email : Option String
  phone : Option String
  snippet : Option String
  lastMessage : Option String
  tags : Option (List String)
deriving DecidableEq, Repr

/-- Stored conversation record `{ at: now, ...data }`. -/
structure ConvRec where
  at_ : Nat
  name : Option String
  email : Option String
  phone : Option String
  snippet : Option String
  lastMessage : Option String
  tags : Option (List String)
deriving DecidableEq, Repr

/-- Building the stored conversation object `{ at: new Date().toISOString(), ...data }`. -/
def mkConvRec (now : Nat) (d : ConvData) : ConvRec :=
  { at_ := d.at_.getD now
    name := d.name
    email := d.email
    phone := d.phone
    snippet := d.snippet
    lastMessage := d.lastMessage
    tags := d.tags }

/-- Per-tenant in-memory state created by getTenantState.  The fields
totalLeads, withContact and topics are absent initially in JS and created on
demand by addConversation via `(state.totalLeads || 0) + 1`; absence is
modelled by the equivalent initial values 0 / 0 / []. -/
structure TenantState where
  startedAt : Nat
  requestsToday : Nat
  successesToday : Nat
  latSamples : List (Option MetricVal)
  events : List EventRec
  errors : List ErrorRec
  usage : UsageCurrent
  usages : List UsageRec
  metrics : List MetricRec
  conversations : List (String × ConvRec)
  totalLeads : Nat
  withContact : Nat
  topics : List String
deriving DecidableEq, Repr

/-- Fresh state installed by getTenantState for an unseen tenant key. -/
def initState (now : Nat) : TenantState :=
  { startedAt := now
    requestsToday := 0
    successesToday := 0
    latSamples := []
    events := []
    errors := []
    usage := .init
    usages := []
    metrics := []
    conversations := []
    totalLeads := 0
    withContact := 0
    topics := [] }

/-- Global mutable map `stateByTenant`, a JS object keyed by tenant id
(insertion-ordered association list). -/
abbrev Store := List (String × TenantState)

/-- Lookup of `stateByTenant[tenant]`. -/
def lookupTenant : Store → String → Option TenantState
  | [], _ => none
  | (k, s) :: rest, t => if k = t then some s else lookupTenant rest t

/-- Assignment `stateByTenant[tenant] = s` (replaces in place, else appends). -/
def setTenant : Store → String → TenantState → Store
  | [], t, s => [(t, s)]
  | (k, v) :: rest, t, s => if k = t then (t, s) :: rest else (k, v) :: setTenant rest t s

/-- getTenantState: returns the tenant state, materialising a fresh default
state in the map when the key is unseen. -/
def getTenantState (now : Nat) (m : Store) (tenant : String) : TenantState × Store :=
  match lookupTenant m tenant with
  | some s => (s, m)
  | none => (initState now, setTenant m tenant (initState now))

/-- addEvent: unshifts `{ at, role: role || "sys", message: message || "" }`,
truncates events with `slice(0, 50)` and bumps requestsToday. -/
def addEvent (now : Nat) (state : TenantState) (role message : Option String) : TenantState :=
  { state with
    events := (⟨now, jsOrStr role "sys", jsOrStr message ""⟩ :: state.events).take 50
    requestsToday := state.requestsToday + 1 }

/-- addError: unshifts `{ at, user, message: message || "error" }` and
truncates errors with `slice(0, 100)`. -/
def addError (now : Nat) (state : TenantState) (user message : Option String) : TenantState :=
  { state with
    errors := (⟨now, user, jsOrStr message "error"⟩ :: state.errors).take 100 }

/-- Usage payload breakdown as received on the wire (heterogeneous field names). -/
structure BreakdownPayload where
  inputCost : Option Int
  promptUSD : Option Int
  outputCost : Option Int
  completionUSD : Option Int
  cachedCost : Option Int
  cachedUSD : Option Int
  total : Option Int
deriving DecidableEq, Repr

/-- Usage payload as received on the wire. -/
structure UsagePayload where
  model : Option String
  prompt_tokens : Option Int
  completion_tokens : Option Int
  cached_tokens : Option Int
  user : Option String
  costUSD : Option Int
  cost : Option Int
  breakdown : Option BreakdownPayload
deriving DecidableEq, Repr

/-- Usage payload with every field absent (the `usage || \x7b\x7d` default). -/
def emptyUsagePayload : UsagePayload :=
  { model := none, prompt_tokens := none, completion_tokens := none
    cached_tokens := none, user := none, costUSD := none, cost := none
    breakdown := none }

/-- The `normalized` record built inside addUsage.  Breakdown keys use the
nullish chains `u.breakdown?.inputCost ?? u.breakdown?.promptUSD ?? 0` (and
similarly), total uses `u.breakdown?.total ?? u.costUSD ?? u.cost ?? 0`;
token counts use `|| 0` and costUSD uses `u.costUSD || u.cost || 0`. -/
def normalizeUsage (now : Nat) (u : UsagePayload) : UsageRec :=
  let bd := u.breakdown
  { at_ := now
    model := u.model
    prompt_tokens := jsOrInt u.prompt_tokens 0
    completion_tokens := jsOrInt u.completion_tokens 0
    cached_tokens := jsOrInt u.cached_tokens 0
    user := u.user
    costUSD := jsOrInt u.costUSD (jsOrInt u.cost 0)
    breakdown :=
      { promptUSD := (jsCoalesce (bd.bind BreakdownPayload.inputCost) (bd.bind BreakdownPayload.promptUSD)).getD 0
        completionUSD := (jsCoalesce (bd.bind BreakdownPayload.outputCost) (bd.bind BreakdownPayload.completionUSD)).getD 0
        cachedUSD := (jsCoalesce (bd.bind BreakdownPayload.cachedCost) (bd.bind BreakdownPayload.cachedUSD)).getD 0
        total := (jsCoalesce (jsCoalesce (bd.bind BreakdownPayload.total) u.costUSD) u.cost).getD 0 } }

/-- addUsage: normalizes the payload, saves it (plus period Current) as the
current usage and unshifts it into the history, truncated with `slice(0, 100)`. -/
def addUsage (now : Nat) (state : TenantState) (usage : Option UsagePayload) : TenantState :=
  let u := usage.getD emptyUsagePayload
  let normalized := normalizeUsage now u
  { state with
    usage := .record normalized
    usages := (normalized :: state.usages).take 100 }

/-- addMetric: unshifts `{ at, type, value }`, truncates metrics with
`slice(0, 100)`, pushes latency samples and counts success marks. -/
def addMetric (now : Nat) (state : TenantState) (type : Option String) (value : Option MetricVal) :
    TenantState :=
  let state :=
    { state with metrics := (⟨now, type, value⟩ :: state.metrics).take 100 }
  let state :=
    if type = some "latency" then { state with latSamples := state.latSamples ++ [value] } else state
  if type = some "success" then { state with successesToday := state.successesToday + 1 } else state

/-- Assignment into a JS object used as a map (`state.conversations[sessionId] = rec`):
an existing key keeps its insertion position, a new key is appended. -/
def listSet : List (String × ConvRec) → String → ConvRec → List (String × ConvRec)
  | [], k, v => [(k, v)]
  | (k0, v0) :: rest, k, v => if k0 = k then (k, v) :: rest else (k0, v0) :: listSet rest k v

/-- Adding one tag to the topics Set (insertion-ordered, duplicates dropped). -/
def addTopic (topics : List String) (t : String) : List String :=
  if t ∈ topics then topics else topics ++ [t]

/-- Truthiness check `data.email || data.phone` used for the withContact counter. -/
def hasContact (d : ConvData) : Bool :=
  truthyStr d.email || truthyStr d.phone

/-- addConversation: stores `{ at: now, ...data }` under the session key
(JS coerces an undefined sessionId to the string key "undefined"), bumps the
premium counters and merges tags into the topics set (insertion order kept). -/
def addConversation (now : Nat) (state : TenantState) (sessionId : Option String) (data : ConvData) :
    TenantState :=
  let key := sessionId.getD "undefined"
  let state :=
    { state with conversations := listSet state.conversations key (mkConvRec now data) }
  let state := { state with totalLeads := state.totalLeads + 1 }
  let state :=
    if hasContact data then { state with withContact := state.withContact + 1 } else state
  match data.tags with
  | some tags => { state with topics := tags.foldl addTopic state.topics }
  | none => state

/-- Model of the JS String toLowerCase method: per-character ASCII lowering. -/
def jsToLower (s : String) : String :=
  String.mk (s.toList.map Char.toLower)

/-- Session payload signed into the cookie: `{ adminUserId, tenantId, email }`. -/
structure SessionPayload where
  adminUserId : Nat
  tenantId : String
  email : String
deriving DecidableEq, Repr

/-- Cookie lifetime from `expiresIn: 7d`. -/
def sessionExpirySec : Nat := 7 * 24 * 60 * 60

/-- Model of the external jsonwebtoken signature: a tag computable only from
the secret and the signed content, compared for equality by jwtVerify. -/
def jwtMac (secret : String) (p : SessionPayload) (exp : Nat) : String :=
  secret ++ "." ++ toString p.adminUserId ++ "." ++ p.tenantId ++ "." ++ p.email ++ "." ++ toString exp

/-- Model of a serialized JWT: signed payload, expiry claim and signature. -/
structure JwtToken where
  payload : SessionPayload
  exp : Nat
  mac : String
deriving DecidableEq, Repr

/-- Model of `jwt.sign(payload, JWT_SECRET, \x7b expiresIn: 7d \x7d)`. -/
def jwtSign (secret : String) (now : Nat) (p : SessionPayload) : JwtToken :=
  { payload := p, exp := now + sessionExpirySec, mac := jwtMac secret p (now + sessionExpirySec) }

/-- Model of `jwt.verify(token, JWT_SECRET)`: succeeds exactly when the
signature matches the secret and the token is not expired; the thrown
JsonWebTokenError / TokenExpiredError is the `none` branch. -/
def jwtVerify (secret : String) (now : Nat) (t : JwtToken) : Option SessionPayload :=
  if t.mac = jwtMac secret t.payload t.exp ∧ now < t.exp then some t.payload else none

/-- readSession: reads the session cookie; returns null when the cookie is
absent, and catches any verification error into null. -/
def readSession (secret : String) (now : Nat) (cookie : Option JwtToken) : Option SessionPayload :=
  match cookie with
  | none => none
  | some t => jwtVerify secret now t

/-- Outcome of a guarded endpoint: a JSON error reply with status and error
code, or the wrapped handler response. -/
inductive Guarded (α : Type) where
  | errorResp (status : Nat) (code : String)
  | allowed (resp : α)
deriving DecidableEq, Repr

/-- requireAuth: rejects with 401 `auth_required` when readSession yields
null, otherwise runs the handler with `req.user` set to the session payload. -/
def requireAuth {α : Type} (secret : String) (now : Nat) (cookie : Option JwtToken)
    (m : Store) (handler : SessionPayload → Store → α × Store) : Guarded α × Store :=
  match readSession secret now cookie with
  | none => (.errorResp 401 "auth_required", m)
  | some sess =>
    let r := handler sess m
    (.allowed r.1, r.2)

/-- Request attributes relevant to tenant resolution, as seen by a handler:
the session user (set by requireAuth), a tenant hint cookie, a tenant header
and the request hostname. -/
structure AdminRequest where
  user : Option SessionPayload
  tenantCookie : Option String
  tenantHeader : Option String
  host : Option String
deriving DecidableEq, Repr

/-- resolveAdminTenant: when a session user with a truthy tenantId is
present, its lower-cased tenantId; otherwise the constant default.  No other
request attribute is consulted. -/
def resolveAdminTenant (r : AdminRequest) : String :=
  match r.user with
  | some u => if u.tenantId = "" then "default" else jsToLower u.tenantId
  | none => "default"

/-- GET /api/portal/events: the resolved tenant's events list. -/
def eventsEndpoint (now : Nat) (r : AdminRequest) (m : Store) : List EventRec × Store :=
  let g := getTenantState now m (resolveAdminTenant r)
  (g.1.events, g.2)

/-- GET /api/portal/errors: the resolved tenant's errors list. -/
def errorsEndpoint (now : Nat) (r : AdminRequest) (m : Store) : List ErrorRec × Store :=
  let g := getTenantState now m (resolveAdminTenant r)
  (g.1.errors, g.2)

/-- GET /api/portal/usage: `\x7b current: state.usage, history: state.usages \x7d`. -/
def usageEndpoint (now : Nat) (r : AdminRequest) (m : Store) :
    (UsageCurrent × List UsageRec) × Store :=
  let g := getTenantState now m (resolveAdminTenant r)
  ((g.1.usage, g.1.usages), g.2)

/-- GET /api/portal/metrics-log: the resolved tenant's metrics list. -/
def metricsLogEndpoint (now : Nat) (r : AdminRequest) (m : Store) : List MetricRec × Store :=
  let g := getTenantState now m (resolveAdminTenant r)
  (g.1.metrics, g.2)

/-- GET /api/portal/conversations: the resolved tenant's conversations object. -/
def conversationsEndpoint (now : Nat) (r : AdminRequest) (m : Store) :
    List (String × ConvRec) × Store :=
  let g := getTenantState now m (resolveAdminTenant r)
  (g.1.conversations, g.2)

/-- Shape of one conversation row in the premium response. -/
structure PremiumConv where
  name : String
  snippet : String
  at_ : Nat
  email : String
  phone : String
  tags : List String
deriving DecidableEq, Repr

/-- Row shaping done by the premium endpoint over Object.values(state.conversations).
The stored `at` is the numeric clock of the write and is always truthy in the
model, so the `c.at || now` fallback never fires. -/
def premiumShapeConv (c : ConvRec) : PremiumConv :=
  { name := jsOrStr c.name (jsOrStr c.email "Unknown")
    snippet := jsOrStr c.snippet (jsOrStr c.lastMessage "")
    at_ := c.at_
    email := jsOrStr c.email ""
    phone := jsOrStr c.phone ""
    tags := c.tags.getD [] }

/-- Lead filter `m.type === lead && m.value` of the premium endpoint. -/
def isLeadMetric (m : MetricRec) : Bool :=
  (m.type == some "lead") && truthyMetricVal m.value

/-- Contact filter `m.value.email && m.value.phone`: numeric values have no
email/phone properties, so only lead objects with both truthy fields pass. -/
def leadHasContact (v : Option MetricVal) : Bool :=
  match v with
  | some (.lead l) => truthyStr l.email && truthyStr l.phone
  | _ => false

/-- Tag list `m.value.tags || []` of a lead metric value. -/
def leadTags (v : Option MetricVal) : List String :=
  match v with
  | some (.lead l) => l.tags.getD []
  | _ => []

/-- One increment `tagCounts[t] = (tagCounts[t] || 0) + 1` on an
insertion-ordered counts object. -/
def bumpTag : List (String × Nat) → String → List (String × Nat)
  | [], t => [(t, 1)]
  | (k, n) :: rest, t => if k = t then (k, n + 1) :: rest else (k, n) :: bumpTag rest t

/-- Accumulated tagCounts object over the lead metrics in order. -/
def tagCounts (leads : List MetricRec) : List (String × Nat) :=
  leads.foldl (fun acc m => (leadTags m.value).foldl bumpTag acc) []

/-- Stable descending insertion by count, modelling the stable JS
`sort((a, b) => b[1] - a[1])`. -/
def insertByCount (x : String × Nat) : List (String × Nat) → List (String × Nat)
  | [] => [x]
  | y :: ys => if x.2 ≤ y.2 then y :: insertByCount x ys else x :: y :: ys

/-- Stable sort of the counts entries by descending count. -/
def sortByCountDesc (l : List (String × Nat)) : List (String × Nat) :=
  l.foldl (fun acc x => insertByCount x acc) []

/-- Premium endpoint response body. -/
structure PremiumResp where
  totalLeads : Nat
  withContact : Nat
  conversations : List PremiumConv
  topics : List String
deriving DecidableEq, Repr

/-- Response computation of GET /api/portal/premium from the tenant state. -/
def premiumResponse (state : TenantState) : PremiumResp :=
  let leads := state.metrics.filter isLeadMetric
  { totalLeads := leads.length
    withContact := (leads.filter fun m => leadHasContact m.value).length
    conversations := state.conversations.map fun p => premiumShapeConv p.2
    topics := ((sortByCountDesc (tagCounts leads)).take 10).map Prod.fst }

/-- GET /api/portal/premium: shaped rows for the resolved tenant. -/
def premiumEndpoint (now : Nat) (r : AdminRequest) (m : Store) : PremiumResp × Store :=
  let g := getTenantState now m (resolveAdminTenant r)
  (premiumResponse g.1, g.2)

/-- Body of POST /api/portal/log.  The conversation `data` field is modelled
as an always-present object: the JS handler dereferences `data.email`
unconditionally inside addConversation, so conversation writes with a
missing data object are outside the model. -/
structure LogBody where
  type : Option String
  role : Option String
  message : Option String
  user : Option String
  usage : Option UsagePayload
  metricType : Option String
  value : Option MetricVal
  sessionId : Option String
  data : ConvData
deriving DecidableEq, Repr

/-- JSON body `\x7b ok: true \x7d`. -/
structure OkJson where
  ok : Bool
deriving DecidableEq, Repr

/-- POST /api/portal/log: resolves the tenant, materialises its state and
dispatches on the discriminated type field; unknown types only log a warning;
the response is always `ok: true`. -/
def postLog (now : Nat) (r : AdminRequest) (body : LogBody) (m : Store) : OkJson × Store :=
  let tenant := resolveAdminTenant r
  let g := getTenantState now m tenant
  let state := g.1
  let m1 := g.2
  let m2 :=
    match body.type with
    | some "event" => setTenant m1 tenant (addEvent now state body.role body.message)
    | some "error" => setTenant m1 tenant (addError now state body.user body.message)
    | some "usage" => setTenant m1 tenant (addUsage now state body.usage)
    | some "metric" => setTenant m1 tenant (addMetric now state body.metricType body.value)
    | some "conversation" => setTenant m1 tenant (addConversation now state body.sessionId body.data)
    | _ => m1
  ({ ok := true }, m2)

/-- Stored admin account row (AdminUser table; email globally unique by the
AdminUser_email_key index). -/
structure AdminUser where
  id : Nat
  tenantId : String
  email : String
  passwordHash : String
deriving DecidableEq, Repr

/-- Model of the external bcryptjs hasher: an opaque-to-callers tagging of the
password, so that compare succeeds exactly on a hash produced from the same
password. -/
def bcryptHash (password : String) : String := "bcrypt^" ++ password

/-- Model of `bcrypt.compare(password, hash)`. -/
def bcryptCompare (password hash : String) : Bool := hash == bcryptHash password

/-- Prisma `adminUser.findUnique(\x7b where: \x7b email \x7d \x7d)` over the stored rows. -/
def findUniqueByEmail : List AdminUser → String → Option AdminUser
  | [], _ => none
  | u :: rest, e => if u.email = e then some u else findUniqueByEmail rest e

/-- Body of POST /api/login. -/
structure LoginBody where
  email : Option String
  password : Option String
deriving DecidableEq, Repr

/-- Outcome of POST /api/login: 400 / 401 JSON error codes, or the 200 body
`\x7b ok: true, tenantId \x7d` together with the Set-Cookie session token. -/
inductive LoginResult where
  | badRequest (code : String)
  | unauthorized (code : String)
  | success (ok : Bool) (tenantId : String) (cookie : JwtToken)
deriving DecidableEq, Repr

/-- POST /api/login: 400 `missing_fields` when email or password is falsy,
lookup by lower-cased email, 401 `invalid_credentials` on unknown email or
failing bcrypt compare, otherwise sets the session cookie and answers
`\x7b ok: true, tenantId \x7d`. -/
def login (secret : String) (now : Nat) (users : List AdminUser) (body : LoginBody) : LoginResult :=
  if !(truthyStr body.email) || !(truthyStr body.password) then
    .badRequest "missing_fields"
  else
    match findUniqueByEmail users (jsToLower (body.email.getD "")) with
    | none => .unauthorized "invalid_credentials"
    | some user =>
      if bcryptCompare (body.password.getD "") user.passwordHash then
        .success true user.tenantId
          (jwtSign secret now
            { adminUserId := user.id, tenantId := user.tenantId, email := user.email })
      else .unauthorized "invalid_credentials"

/-- GET /api/me: requireAuth, then the session payload echoed as JSON. -/
def apiMe (secret : String) (now : Nat) (cookie : Option JwtToken) (m : Store) :
    Guarded SessionPayload × Store :=
  requireAuth secret now cookie m (fun sess st => (sess, st))

/-- One login attempt as seen by the server: the source IP and the body.
The handler never reads the IP and keeps no counter state. -/
structure LoginAttempt where
  ip : String
  body : LoginBody
deriving DecidableEq, Repr

/-- Trace semantics of a sequence of POST /api/login requests within one
clock instant: the handler touches no shared mutable state (no per-IP or
per-email counters exist in server.js), so each response is computed from
that request alone. -/
def runLogins (secret : String) (now : Nat) (users : List AdminUser)
    (reqs : List LoginAttempt) : List LoginResult :=
  reqs.map fun a => login secret now users a.body

/-- Classification of a processed attempt as failed (non-2xx response). -/
def isFailedLogin : LoginResult → Bool
  | .success _ _ _ => false
  | _ => true

/-- Outcome of the shared-key gate middleware of the gated server variant. -/
inductive GateResult where
  | next
  | unauthorized
deriving DecidableEq, Repr

/-- gate: off when `process.env.CUSTOMER_KEY` is falsy (unset or empty);
otherwise compares `req.query.key || req.get(x-customer-key)` against the key
with strict equality and answers 401 Unauthorized on mismatch. -/
def gate (customerKey queryKey headerKey : Option String) : GateResult :=
  if !(truthyStr customerKey) then .next
  else
    let provided := if truthyStr queryKey then queryKey else headerKey
    if provided = customerKey then .next else .unauthorized

/-- Specification-side gate admission, following the words of the claim: with
CUSTOMER_KEY set, a request passes iff its key query parameter or its
x-customer-key header equals CUSTOMER_KEY exactly; with it unset, every
request passes. -/
def specGateAdmits (customerKey queryKey headerKey : Option String) : Bool :=
  match customerKey with
  | none => true
  | some k => (queryKey == some k) || (headerKey == some k)

/-- Character class [a-z0-9_-] of the spec's hint normalization. -/
def allowedHintChar (c : Char) : Bool :=
  c.isLower || c.isDigit || c == Char.ofNat 95 || c == Char.ofNat 45

/-- Hint normalization described by the spec: lower-cased and restricted to
[a-z0-9_-]. -/
def normalizeHint (s : String) : String :=
  String.mk ((s.toList.map Char.toLower).filter allowedHintChar)

/-- Subdomain of a hostname: the first dot-separated label, when the host has
at least two labels. -/
def hostSubdomain (host : String) : Option String :=
  match host.splitOn "." with
  | [] => none
  | [_] => none
  | first :: _ :: _ => some first

/-- Reserved subdomain set of the spec: www, localhost, admin, numeric. -/
def reservedSubdomain (s : String) : Bool :=
  s == "www" || s == "localhost" || s == "admin" ||
    (decide (s ≠ "") && s.toList.all Char.isDigit)

/-- Specification-side tenant resolution, following the words of the claim:
first match wins among (1) the verified session tenant, (2) the tenant hint
cookie, (3) the tenant header, (4) the hostname subdomain outside the
reserved set, (5) the constant default; hints normalized to [a-z0-9_-]. -/
def specResolveTenant (r : AdminRequest) : String :=
  match r.user with
  | some u => normalizeHint u.tenantId
  | none =>
    match r.tenantCookie with
    | some c => normalizeHint c
    | none =>
      match r.tenantHeader with
      | some h => normalizeHint h
      | none =>
        match r.host.bind hostSubdomain with
        | some s => if reservedSubdomain (normalizeHint s) then "default" else normalizeHint s
        | none => "default"

/-- Well-formedness of the AdminUser table enforced by the unique index
AdminUser_email_key: pairwise distinct emails. -/
def uniqueEmails (users : List AdminUser) : Prop :=
  users.Pairwise fun a b => a.email ≠ b.email

instance (users : List AdminUser) : Decidable (uniqueEmails users) := by
  unfold uniqueEmails
  exact List.instDecidablePairwise users

/-- Specification-side usage normalization following the words of the claim:
each breakdown key and costUSD take the first present (non-nullish) of their
accepted source fields, token counts default to 0. -/
def specNormalizeUsage (now : Nat) (u : UsagePayload) : UsageRec :=
  let bd := u.breakdown
  { at_ := now
    model := u.model
    prompt_tokens := u.prompt_tokens.getD 0
    completion_tokens := u.completion_tokens.getD 0
    cached_tokens := u.cached_tokens.getD 0
    user := u.user
    costUSD := (jsCoalesce u.costUSD u.cost).getD 0
    breakdown :=
      { promptUSD := (jsCoalesce (bd.bind BreakdownPayload.inputCost) (bd.bind BreakdownPayload.promptUSD)).getD 0
        completionUSD := (jsCoalesce (bd.bind BreakdownPayload.outputCost) (bd.bind BreakdownPayload.completionUSD)).getD 0
        cachedUSD := (jsCoalesce (bd.bind BreakdownPayload.cachedCost) (bd.bind BreakdownPayload.cachedUSD)).getD 0
        total := (jsCoalesce (jsCoalesce (bd.bind BreakdownPayload.total) u.costUSD) u.cost).getD 0 } }

/-- The admin account created by prisma/seed.js for the default tenant. -/
def seededAdmin : AdminUser :=
  { id := 1, tenantId := "default", email := "admin@example.com"
    passwordHash := bcryptHash "admin123" }

/-- Conversation payload with every field absent. -/
def emptyConvData : ConvData :=
  { at_ := none, name := none, email := none, phone := none
    snippet := none, lastMessage := none, tags := none }

/-- Log body with every optional field absent and the given type tag. -/
def plainLogBody (type : Option String) : LogBody :=
  { type := type, role := none, message := none, user := none, usage := none
    metricType := none, value := none, sessionId := none, data := emptyConvData }

/-- Lemma: assigning a tenant key makes it visible under that key. -/
theorem lookupTenant_setTenant_self (m : Store) (t : String) (s : TenantState) :
    lookupTenant (setTenant m t s) t = some s := by
  induction m with
  | nil => simp [setTenant, lookupTenant]
  | cons p rest ih =>
    obtain ⟨k, v⟩ := p
    by_cases h : k = t <;> simp [setTenant, lookupTenant, h, ih]

/-- Lemma: assigning one tenant key leaves every other key unchanged. -/
theorem lookupTenant_setTenant_ne (m : Store) (t b : String) (s : TenantState) (h : b ≠ t) :
    lookupTenant (setTenant m t s) b = lookupTenant m b := by
  induction m with
  | nil => simp [setTenant, lookupTenant, Ne.symm h]
  | cons p rest ih =>
    obtain ⟨k, v⟩ := p
    by_cases hk : k = t
    · subst hk
      simp [setTenant, lookupTenant, Ne.symm h]
    · simp [setTenant, lookupTenant, hk, ih]

/-- Lemma: the state handed out by getTenantState is the stored one, or the
fresh default state for an unseen key. -/
theorem getTenantState_fst (now : Nat) (m : Store) (t : String) :
    (getTenantState now m t).1 = (lookupTenant m t).getD (initState now) := by
  unfold getTenantState
  cases h : lookupTenant m t <;> simp [h]

/-- Lemma: materialising one tenant inside getTenantState leaves every other
key of the map unchanged. -/
theorem getTenantState_snd_frame (now : Nat) (m : Store) (t b : String) (h : b ≠ t) :
    lookupTenant (getTenantState now m t).2 b = lookupTenant m b := by
  unfold getTenantState
  cases hl : lookupTenant m t <;>
    simp [hl, lookupTenant_setTenant_ne _ _ _ _ h]

/-- Lemma: a POST /api/portal/log request only ever writes the entry of its
resolved tenant. -/
theorem postLog_frame (now : Nat) (r : AdminRequest) (body : LogBody) (m : Store) (b : String)
    (h : b ≠ resolveAdminTenant r) :
    lookupTenant (postLog now r body m).2 b = lookupTenant m b := by
  have h2 := getTenantState_snd_frame now m (resolveAdminTenant r) b h
  simp only [postLog]
  split <;> simp [lookupTenant_setTenant_ne _ _ _ _ h, h2]

/-- Lemma: the tenant state a read handler sees for tenant B is unaffected by
a write resolved to a different tenant. -/
theorem read_state_frame (now now2 : Nat) (ra rb : AdminRequest) (body : LogBody) (m : Store)
    (h : resolveAdminTenant rb ≠ resolveAdminTenant ra) :
    (getTenantState now2 (postLog now ra body m).2 (resolveAdminTenant rb)).1 =
      (getTenantState now2 m (resolveAdminTenant rb)).1 := by
  rw [getTenantState_fst, getTenantState_fst, postLog_frame now ra body m _ h]

/-- Lemma: head of a truncated non-empty list is its first element. -/
theorem head_take_cons {α : Type} (a : α) (l : List α) (n : Nat) (h : n ≠ 0) :
    ((a :: l).take n).head? = some a := by
  cases n with
  | zero => exact absurd rfl h
  | succ k => simp

/-- Lemma: the metrics list written by addMetric, unaffected by the latency
and success side branches. -/
theorem addMetric_metrics (now : Nat) (st : TenantState) (t : Option String) (v : Option MetricVal) :
    (addMetric now st t v).metrics = (⟨now, t, v⟩ :: st.metrics).take 100 := by
  simp only [addMetric]
  split <;> split <;> rfl

/-- Log body of a latency metric write: type metric, metricType latency. -/
def metricLatencyBody (n : Int) : LogBody :=
  { plainLogBody (some "metric") with metricType := some "latency", value := some (.num n) }

/-- Request carrying a verified session for tenant acme. -/
def reqAcme : AdminRequest :=
  { user := some { adminUserId := 1, tenantId := "acme", email := "a@acme.com" }
    tenantCookie := none, tenantHeader := none, host := none }

/-- Request with no session (resolved to the default tenant). -/
def reqAnon : AdminRequest :=
  { user := none, tenantCookie := none, tenantHeader := none, host := none }

/-- C1: multi-tenant isolation.  For two requests resolved to distinct
tenants, a record written through POST /api/portal/log (which dispatches to
addEvent, addError, addUsage, addMetric, addConversation) never appears in
the response of any read endpoint (events, errors, usage, metrics-log,
conversations, premium) of the other tenant: those responses are unchanged
by the write, because getTenantState keys states by tenant and every handler
touches only its resolved tenant's entry. -/
theorem multi_tenant_isolation (now now2 : Nat) (ra rb : AdminRequest) (body : LogBody)
    (m : Store) (hne : resolveAdminTenant rb ≠ resolveAdminTenant ra) :
    (eventsEndpoint now2 rb (postLog now ra body m).2).1 = (eventsEndpoint now2 rb m).1 ∧
    (errorsEndpoint now2 rb (postLog now ra body m).2).1 = (errorsEndpoint now2 rb m).1 ∧
    (usageEndpoint now2 rb (postLog now ra body m).2).1 = (usageEndpoint now2 rb m).1 ∧
    (metricsLogEndpoint now2 rb (postLog now ra body m).2).1 = (metricsLogEndpoint now2 rb m).1 ∧
    (conversationsEndpoint now2 rb (postLog now ra body m).2).1 =
      (conversationsEndpoint now2 rb m).1 ∧
    (premiumEndpoint now2 rb (postLog now ra body m).2).1 = (premiumEndpoint now2 rb m).1 := by
  have hs := read_state_frame now now2 ra rb body m hne
  refine ⟨?_, ?_, ?_, ?_, ?_, ?_⟩ <;>
    simp [eventsEndpoint, errorsEndpoint, usageEndpoint, metricsLogEndpoint,
      conversationsEndpoint, premiumEndpoint, hs]

/-- Witness for C1: a write under tenant acme leaves all six read responses
of the default tenant unchanged. -/
theorem multi_tenant_isolation_witness :
    resolveAdminTenant reqAnon ≠ resolveAdminTenant reqAcme ∧
    ((eventsEndpoint 9 reqAnon (postLog 5 reqAcme (plainLogBody (some "event")) []).2).1 =
        (eventsEndpoint 9 reqAnon []).1 ∧
      (errorsEndpoint 9 reqAnon (postLog 5 reqAcme (plainLogBody (some "event")) []).2).1 =
        (errorsEndpoint 9 reqAnon []).1 ∧
      (usageEndpoint 9 reqAnon (postLog 5 reqAcme (plainLogBody (some "event")) []).2).1 =
        (usageEndpoint 9 reqAnon []).1 ∧
      (metricsLogEndpoint 9 reqAnon (postLog 5 reqAcme (plainLogBody (some "event")) []).2).1 =
        (metricsLogEndpoint 9 reqAnon []).1 ∧
      (conversationsEndpoint 9 reqAnon (postLog 5 reqAcme (plainLogBody (some "event")) []).2).1 =
        (conversationsEndpoint 9 reqAnon []).1 ∧
      (premiumEndpoint 9 reqAnon (postLog 5 reqAcme (plainLogBody (some "event")) []).2).1 =
        (premiumEndpoint 9 reqAnon []).1) :=
  ⟨by decide, multi_tenant_isolation 5 9 reqAcme reqAnon (plainLogBody (some "event")) []
    (by decide)⟩

/-- C7: every per-tenant log collection is kept most-recent-first and
bounded: addEvent prepends and truncates events to 50, addError errors to
100, addMetric metrics to 100, addUsage history to 100; and after POST
/api/portal/log with type metric, metricType latency, value 120, the first
entry of the GET /api/portal/metrics-log response has type latency and
value 120. -/
theorem log_collections_bounded_recent_first :
    (∀ now st role msg, (addEvent now st role msg).events.length ≤ 50 ∧
        (addEvent now st role msg).events.head? =
          some ⟨now, jsOrStr role "sys", jsOrStr msg ""⟩) ∧
    (∀ now st user msg, (addError now st user msg).errors.length ≤ 100 ∧
        (addError now st user msg).errors.head? = some ⟨now, user, jsOrStr msg "error"⟩) ∧
    (∀ now st t v, (addMetric now st t v).metrics.length ≤ 100 ∧
        (addMetric now st t v).metrics.head? = some ⟨now, t, v⟩) ∧
    (∀ now st u, (addUsage now st u).usages.length ≤ 100 ∧
        (addUsage now st u).usages.head? =
          some (normalizeUsage now (u.getD emptyUsagePayload))) ∧
    (∀ now now2 r m,
        (metricsLogEndpoint now2 r (postLog now r (metricLatencyBody 120) m).2).1.head? =
          some ⟨now, some "latency", some (.num 120)⟩) := by
  refine ⟨?_, ?_, ?_, ?_, ?_⟩
  · intro now st role msg
    exact ⟨by simp [addEvent],
      by simp [addEvent, head_take_cons _ _ 50 (by decide)]⟩
  · intro now st user msg
    exact ⟨by simp [addError],
      by simp [addError, head_take_cons _ _ 100 (by decide)]⟩
  · intro now st t v
    rw [addMetric_metrics]
    exact ⟨List.length_take_le _ _, head_take_cons _ _ 100 (by decide)⟩
  · intro now st u
    exact ⟨by simp [addUsage],
      by simp [addUsage, head_take_cons _ _ 100 (by decide)]⟩
  · intro now now2 r m
    have hpost : (postLog now r (metricLatencyBody 120) m).2 =
        setTenant (getTenantState now m (resolveAdminTenant r)).2 (resolveAdminTenant r)
          (addMetric now (getTenantState now m (resolveAdminTenant r)).1
            (some "latency") (some (.num 120))) := by
      simp [postLog, metricLatencyBody, plainLogBody]
    simp [metricsLogEndpoint, getTenantState_fst, hpost, lookupTenant_setTenant_self,
      addMetric_metrics, head_take_cons _ _ 100 (by decide)]

/-- Request with no session but an explicit tenant header. -/
def reqHeaderOnly : AdminRequest :=
  { user := none, tenantCookie := none, tenantHeader := some "acme", host := none }

/-- Counterexample for C2: on a request with no session and a tenant header
acme, the claimed five-step precedence resolves acme (step 3), but
resolveAdminTenant ignores the header and yields the fallback default. -/
theorem resolve_tenant_precedence_counterexample :
    resolveAdminTenant reqHeaderOnly = "default" ∧
    specResolveTenant reqHeaderOnly = "acme" ∧
    resolveAdminTenant reqHeaderOnly ≠ specResolveTenant reqHeaderOnly := by
  refine ⟨rfl, by decide, by decide⟩

/-- C2 (amended): resolveAdminTenant consults only the verified session: a
present session user with a truthy tenantId resolves to that tenantId
lower-cased, and every other request (no session, or an empty session
tenantId) resolves to the constant default, whatever tenant hint cookie,
header or hostname the request carries.  In particular a session tenant
always wins over a conflicting header tenant. -/
theorem resolve_tenant_session_only :
    (∀ r u, r.user = some u → u.tenantId ≠ "" →
        resolveAdminTenant r = jsToLower u.tenantId) ∧
    (∀ r u, r.user = some u → u.tenantId = "" → resolveAdminTenant r = "default") ∧
    (∀ r, r.user = none → resolveAdminTenant r = "default") := by
  refine ⟨?_, ?_, ?_⟩
  · intro r u hu ht
    simp [resolveAdminTenant, hu, ht]
  · intro r u hu ht
    simp [resolveAdminTenant, hu, ht]
  · intro r hu
    simp [resolveAdminTenant, hu]

/-- Request carrying both a session tenant Acme and a conflicting header. -/
def reqSessionAndHeader : AdminRequest :=
  { user := some { adminUserId := 2, tenantId := "Acme", email := "a@acme.com" }
    tenantCookie := none, tenantHeader := some "other", host := none }

/-- Witness for C2 (amended): with both a session tenant Acme and a header
tenant other, resolution yields the lower-cased session tenant acme. -/
theorem resolve_tenant_session_only_witness :
    reqSessionAndHeader.user = some { adminUserId := 2, tenantId := "Acme", email := "a@acme.com" } ∧
    ("Acme" : String) ≠ "" ∧
    resolveAdminTenant reqSessionAndHeader = "acme" :=
  ⟨rfl, by decide,
    by
      have h := resolve_tenant_session_only.1 reqSessionAndHeader
        { adminUserId := 2, tenantId := "Acme", email := "a@acme.com" } rfl (by decide)
      simpa using h⟩

/-- C3: session verification returns null for a missing, expired or
wrongly-signed token without throwing, requireAuth then answers 401 with
error code auth_required and leaves the tenant-state map unchanged; a
validly signed, unexpired token verifies to its embedded payload and the
guarded handler runs with that payload as req.user. -/
theorem session_verification_and_guard :
    (∀ secret now, readSession secret now none = none) ∧
    (∀ secret now t, t.exp ≤ now → readSession secret now (some t) = none) ∧
    (∀ secret now t, t.mac ≠ jwtMac secret t.payload t.exp →
        readSession secret now (some t) = none) ∧
    (∀ (α : Type) (secret : String) (now : Nat) (cookie : Option JwtToken) (m : Store)
        (handler : SessionPayload → Store → α × Store),
        readSession secret now cookie = none →
        requireAuth secret now cookie m handler = (.errorResp 401 "auth_required", m)) ∧
    (∀ secret now t, t.mac = jwtMac secret t.payload t.exp → now < t.exp →
        readSession secret now (some t) = some t.payload) ∧
    (∀ (α : Type) (secret : String) (now : Nat) (t : JwtToken) (m : Store)
        (handler : SessionPayload → Store → α × Store),
        t.mac = jwtMac secret t.payload t.exp → now < t.exp →
        requireAuth secret now (some t) m handler =
          (.allowed (handler t.payload m).1, (handler t.payload m).2)) := by
  refine ⟨?_, ?_, ?_, ?_, ?_, ?_⟩
  · intro secret now
    rfl
  · intro secret now t h
    simp only [readSession, jwtVerify]
    rw [if_neg]
    rintro ⟨-, hlt⟩
    omega
  · intro secret now t h
    simp only [readSession, jwtVerify]
    rw [if_neg]
    rintro ⟨hmac, -⟩
    exact h hmac
  · intro α secret now cookie m handler h
    simp [requireAuth, h]
  · intro secret now t hmac hexp
    simp [readSession, jwtVerify, hmac, hexp]
  · intro α secret now t m handler hmac hexp
    simp [requireAuth, readSession, jwtVerify, hmac, hexp]

/-- Session payload used by the concrete witnesses. -/
def payload0 : SessionPayload :=
  { adminUserId := 1, tenantId := "default", email := "admin@example.com" }

/-- A token signed at clock 0 with the secret s. -/
def goodToken : JwtToken := jwtSign "s" 0 payload0

/-- The same token with its signature tampered. -/
def tamperedToken : JwtToken := { goodToken with mac := "forged" }

/-- Witness for C3: the missing, expired and tampered cases all yield the
401 auth_required reply with the map unchanged, and the valid case runs the
handler with the decoded payload. -/
theorem session_verification_and_guard_witness :
    (goodToken.exp ≤ 700000 ∧
      readSession "s" 700000 (some goodToken) = none) ∧
    (tamperedToken.mac ≠ jwtMac "s" tamperedToken.payload tamperedToken.exp ∧
      readSession "s" 3 (some tamperedToken) = none) ∧
    (readSession "s" 700000 (some goodToken) = none →
      requireAuth "s" 700000 (some goodToken) ([] : Store) (fun sess st => (sess, st)) =
        (.errorResp 401 "auth_required", ([] : Store))) ∧
    (goodToken.mac = jwtMac "s" goodToken.payload goodToken.exp ∧ (3 : Nat) < goodToken.exp ∧
      requireAuth "s" 3 (some goodToken) ([] : Store) (fun sess st => (sess, st)) =
        (.allowed payload0, ([] : Store))) :=
  ⟨⟨by decide, session_verification_and_guard.2.1 "s" 700000 goodToken (by decide)⟩,
    ⟨by decide, session_verification_and_guard.2.2.1 "s" 3 tamperedToken (by decide)⟩,
    fun h => session_verification_and_guard.2.2.2.1 SessionPayload "s" 700000
      (some goodToken) [] (fun sess st => (sess, st)) h,
    ⟨by decide, by decide,
      session_verification_and_guard.2.2.2.2.2 SessionPayload "s" 3 goodToken []
        (fun sess st => (sess, st)) (by decide) (by decide)⟩⟩

/-- C4: a login whose email matches a stored account and whose password
verifies against the stored hash answers ok with the account's tenantId and
sets a session cookie decoding to that account's payload, which a later GET
/api/me echoes back; a request with missing (falsy) email or password gets
400 missing_fields; an unknown email or non-matching password gets 401
invalid_credentials. -/
theorem login_success_and_me_roundtrip :
    (∀ (secret : String) (now : Nat) (users : List AdminUser) (body : LoginBody)
        (e p : String) (u : AdminUser),
        body.email = some e → body.password = some p → e ≠ "" → p ≠ "" →
        findUniqueByEmail users (jsToLower e) = some u →
        u.passwordHash = bcryptHash p →
        login secret now users body =
          .success true u.tenantId
            (jwtSign secret now
              { adminUserId := u.id, tenantId := u.tenantId, email := u.email }) ∧
        (∀ (now2 : Nat) (m : Store), now2 < now + sessionExpirySec →
            apiMe secret now2
              (some (jwtSign secret now
                { adminUserId := u.id, tenantId := u.tenantId, email := u.email })) m =
              (.allowed { adminUserId := u.id, tenantId := u.tenantId, email := u.email }, m))) ∧
    (∀ (secret : String) (now : Nat) (users : List AdminUser) (body : LoginBody),
        truthyStr body.email = false ∨ truthyStr body.password = false →
        login secret now users body = .badRequest "missing_fields") ∧
    (∀ (secret : String) (now : Nat) (users : List AdminUser) (body : LoginBody) (e : String),
        body.email = some e → e ≠ "" → truthyStr body.password = true →
        findUniqueByEmail users (jsToLower e) = none →
        login secret now users body = .unauthorized "invalid_credentials") ∧
    (∀ (secret : String) (now : Nat) (users : List AdminUser) (body : LoginBody)
        (e : String) (u : AdminUser),
        body.email = some e → e ≠ "" → truthyStr body.password = true →
        findUniqueByEmail users (jsToLower e) = some u →
        u.passwordHash ≠ bcryptHash (body.password.getD "") →
        login secret now users body = .unauthorized "invalid_credentials") := by
  refine ⟨?_, ?_, ?_, ?_⟩
  · intro secret now users body e p u he hp hene hpne hfind hhash
    constructor
    · simp [login, he, hp, truthyStr, hene, hpne, hfind, hhash, bcryptCompare]
    · intro now2 m hlt
      simp [apiMe, requireAuth, readSession, jwtVerify, jwtSign, hlt]
  · intro secret now users body h
    rcases h with h | h <;> simp [login, h]
  · intro secret now users body e he hene hpw hfind
    have htre : truthyStr (some e) = true := by simp [truthyStr, hene]
    simp [login, he, htre, hpw, hfind]
  · intro secret now users body e u he hene hpw hfind hhash
    have htre : truthyStr (some e) = true := by simp [truthyStr, hene]
    simp [login, he, htre, hpw, hfind, bcryptCompare, beq_iff_eq, hhash]

/-- Witness for C4: the seeded default-tenant account logs in with
admin@example.com / admin123, receives tenantId default and a cookie that a
later /api/me call decodes to the seeded payload. -/
theorem login_success_and_me_roundtrip_witness :
    findUniqueByEmail [seededAdmin] (jsToLower "admin@example.com") = some seededAdmin ∧
    seededAdmin.passwordHash = bcryptHash "admin123" ∧
    login "s" 0 [seededAdmin]
        { email := some "admin@example.com", password := some "admin123" } =
      .success true "default" (jwtSign "s" 0 payload0) ∧
    apiMe "s" 100 (some (jwtSign "s" 0 payload0)) [] = (.allowed payload0, ([] : Store)) :=
  ⟨by decide, by decide,
    (login_success_and_me_roundtrip.1 "s" 0 [seededAdmin]
      { email := some "admin@example.com", password := some "admin123" }
      "admin@example.com" "admin123" seededAdmin rfl rfl (by decide) (by decide)
      (by decide) (by decide)).1,
    (login_success_and_me_roundtrip.1 "s" 0 [seededAdmin]
      { email := some "admin@example.com", password := some "admin123" }
      "admin@example.com" "admin123" seededAdmin rfl rfl (by decide) (by decide)
      (by decide) (by decide)).2 100 [] (by decide)⟩

/-- A failed attempt (wrong password) from one fixed source IP. -/
def badAttempt : LoginAttempt :=
  { ip := "10.0.0.1", body := { email := some "admin@example.com", password := some "wrong" } }

/-- A valid-credential attempt from the same source IP. -/
def goodAttempt : LoginAttempt :=
  { ip := "10.0.0.1", body := { email := some "admin@example.com", password := some "admin123" } }

/-- Counterexample for C5: five consecutive failed logins from one IP within
one instant, yet the sixth attempt from the same IP is processed normally
and succeeds - it is not rejected by any rate limiter, and no rate-limited
response exists in the handler. -/
theorem login_rate_limit_counterexample :
    ((runLogins "s" 0 [seededAdmin]
        [badAttempt, badAttempt, badAttempt, badAttempt, badAttempt, goodAttempt]).take 5).all
      isFailedLogin = true ∧
    (runLogins "s" 0 [seededAdmin]
        [badAttempt, badAttempt, badAttempt, badAttempt, badAttempt, goodAttempt]).getLast? =
      some (.success true "default" (jwtSign "s" 0 payload0)) := by
  exact ⟨by decide, by decide⟩

/-- C5 (amended): POST /api/login applies no rate limiting at all: the
handler keeps no per-IP or per-email failure counters, and the response of
every attempt in a sequence - in particular the attempt following any number
of failed attempts from the same IP or email - is computed by login from
that attempt's body and the stored users alone. -/
theorem login_is_stateless :
    ∀ (secret : String) (now : Nat) (users : List AdminUser)
      (reqs : List LoginAttempt) (a : LoginAttempt),
      (runLogins secret now users (reqs ++ [a])).getLast? =
        some (login secret now users a.body) ∧
      runLogins secret now users reqs =
        reqs.map (fun q => login secret now users q.body) := by
  intro secret now users reqs a
  exact ⟨by simp [runLogins], rfl⟩

/-- The admin account of a second tenant, for the uniqueness witness. -/
def acmeAdmin : AdminUser :=
  { id := 2, tenantId := "acme", email := "b@acme.com", passwordHash := bcryptHash "pw2" }

/-- C6: the store's unique index on AdminUser.email makes it impossible for
more than one stored account to match a login email (so the claim's
tenant-hint disambiguation branch holds vacuously: its precondition never
arises); when exactly one account matches, findUnique returns it and login
proceeds on that account alone. -/
theorem login_email_uniqueness_dispatch :
    (∀ (users : List AdminUser), uniqueEmails users →
        ∀ e, (users.filter fun u => u.email == e).length ≤ 1) ∧
    (∀ (users : List AdminUser) (e : String) (u : AdminUser),
        (users.filter fun x => x.email == e) = [u] → findUniqueByEmail users e = some u) ∧
    (∀ (secret : String) (now : Nat) (users : List AdminUser) (body : LoginBody)
        (e : String) (u : AdminUser),
        body.email = some e → e ≠ "" → truthyStr body.password = true →
        findUniqueByEmail users (jsToLower e) = some u →
        login secret now users body =
          if bcryptCompare (body.password.getD "") u.passwordHash then
            .success true u.tenantId
              (jwtSign secret now
                { adminUserId := u.id, tenantId := u.tenantId, email := u.email })
          else .unauthorized "invalid_credentials") := by
  refine ⟨?_, ?_, ?_⟩
  · intro users
    induction users with
    | nil => intro h e; simp
    | cons x rest ih =>
      intro h e
      replace h := List.pairwise_cons.mp h
      have ih2 := ih h.2 e
      by_cases hx : x.email = e
      · have hrest : (rest.filter fun u => u.email == e) = [] := by
          rw [List.filter_eq_nil_iff]
          intro b hb hbe
          rw [beq_iff_eq] at hbe
          exact h.1 b hb (hx.trans hbe.symm)
        simp [List.filter_cons, hx, hrest]
      · simpa [List.filter_cons, hx] using ih2
  · intro users e u
    induction users with
    | nil => simp
    | cons x rest ih =>
      intro hfilter
      rw [List.filter_cons] at hfilter
      by_cases hx : x.email = e
      · simp [hx] at hfilter
        obtain ⟨rfl, -⟩ := hfilter
        simp [findUniqueByEmail, hx]
      · simp [hx] at hfilter
        simp [findUniqueByEmail, hx, ih hfilter]
  · intro secret now users body e u he hene hpw hfind
    have htre : truthyStr (some e) = true := by simp [truthyStr, hene]
    simp [login, he, htre, hpw, hfind]

/-- Witness for C6: a two-tenant store with distinct emails; the email
b@acme.com matches exactly the acme account, findUnique returns it and login
proceeds on it. -/
theorem login_email_uniqueness_dispatch_witness :
    uniqueEmails [seededAdmin, acmeAdmin] ∧
    ([seededAdmin, acmeAdmin].filter fun u => u.email == "b@acme.com").length ≤ 1 ∧
    ([seededAdmin, acmeAdmin].filter fun x => x.email == "b@acme.com") = [acmeAdmin] ∧
    findUniqueByEmail [seededAdmin, acmeAdmin] "b@acme.com" = some acmeAdmin ∧
    login "s" 0 [seededAdmin, acmeAdmin]
        { email := some "b@acme.com", password := some "pw2" } =
      (if bcryptCompare "pw2" acmeAdmin.passwordHash then
        .success true acmeAdmin.tenantId
          (jwtSign "s" 0
            { adminUserId := acmeAdmin.id, tenantId := acmeAdmin.tenantId,
              email := acmeAdmin.email })
      else .unauthorized "invalid_credentials") :=
  ⟨by decide,
    login_email_uniqueness_dispatch.1 [seededAdmin, acmeAdmin] (by decide) "b@acme.com",
    by decide,
    login_email_uniqueness_dispatch.2.1 [seededAdmin, acmeAdmin] "b@acme.com" acmeAdmin
      (by decide),
    login_email_uniqueness_dispatch.2.2 "s" 0 [seededAdmin, acmeAdmin]
      { email := some "b@acme.com", password := some "pw2" } "b@acme.com" acmeAdmin
      rfl (by decide) (by decide) (by decide)⟩

/-- Counterexample for C8: an unknown log type on a previously-unseen tenant
does not leave the resolved tenant's state completely unchanged - the
handler calls getTenantState before dispatching, so it materialises a fresh
default state (with startedAt the request time) for the resolved tenant. -/
theorem post_log_unknown_type_counterexample :
    (postLog 7 reqAnon (plainLogBody (some "bogus")) []).1 = { ok := true } ∧
    (postLog 7 reqAnon (plainLogBody (some "bogus")) []).2 = [("default", initState 7)] ∧
    (postLog 7 reqAnon (plainLogBody (some "bogus")) []).2 ≠ ([] : Store) := by
  exact ⟨rfl, by decide, by decide⟩

/-- C8 (amended): POST /api/portal/log dispatches the discriminated type
field to exactly one persistence routine for each of event, error, usage,
metric, conversation, writing only the resolved tenant's entry; for every
type outside this set nothing is dispatched and, provided the resolved
tenant's state is already materialised, the whole store is left unchanged;
the response is always ok true (materialising a fresh default state for an
unseen tenant is the only effect an unknown type can have). -/
theorem post_log_dispatch :
    (∀ (now : Nat) (r : AdminRequest) (body : LogBody) (m : Store) (st : TenantState),
        lookupTenant m (resolveAdminTenant r) = some st →
        body.type ∉ ([some "event", some "error", some "usage", some "metric",
          some "conversation"] : List (Option String)) →
        postLog now r body m = ({ ok := true }, m)) ∧
    (∀ (now : Nat) (r : AdminRequest) (body : LogBody) (m : Store),
        body.type = some "event" →
        lookupTenant (postLog now r body m).2 (resolveAdminTenant r) =
          some (addEvent now (getTenantState now m (resolveAdminTenant r)).1
            body.role body.message)) ∧
    (∀ (now : Nat) (r : AdminRequest) (body : LogBody) (m : Store),
        body.type = some "error" →
        lookupTenant (postLog now r body m).2 (resolveAdminTenant r) =
          some (addError now (getTenantState now m (resolveAdminTenant r)).1
            body.user body.message)) ∧
    (∀ (now : Nat) (r : AdminRequest) (body : LogBody) (m : Store),
        body.type = some "usage" →
        lookupTenant (postLog now r body m).2 (resolveAdminTenant r) =
          some (addUsage now (getTenantState now m (resolveAdminTenant r)).1 body.usage)) ∧
    (∀ (now : Nat) (r : AdminRequest) (body : LogBody) (m : Store),
        body.type = some "metric" →
        lookupTenant (postLog now r body m).2 (resolveAdminTenant r) =
          some (addMetric now (getTenantState now m (resolveAdminTenant r)).1
            body.metricType body.value)) ∧
    (∀ (now : Nat) (r : AdminRequest) (body : LogBody) (m : Store),
        body.type = some "conversation" →
        lookupTenant (postLog now r body m).2 (resolveAdminTenant r) =
          some (addConversation now (getTenantState now m (resolveAdminTenant r)).1
            body.sessionId body.data)) ∧
    (∀ (now : Nat) (r : AdminRequest) (body : LogBody) (m : Store),
        (postLog now r body m).1 = { ok := true }) := by
  refine ⟨?_, ?_, ?_, ?_, ?_, ?_, ?_⟩
  · intro now r body m st hst hmem
    simp only [postLog, getTenantState, hst]
    split <;> simp_all
  · intro now r body m hb
    simp only [postLog, hb]
    simp [lookupTenant_setTenant_self]
  · intro now r body m hb
    simp only [postLog, hb]
    simp [lookupTenant_setTenant_self]
  · intro now r body m hb
    simp only [postLog, hb]
    simp [lookupTenant_setTenant_self]
  · intro now r body m hb
    simp only [postLog, hb]
    simp [lookupTenant_setTenant_self]
  · intro now r body m hb
    simp only [postLog, hb]
    simp [lookupTenant_setTenant_self]
  · intro now r body m
    simp only [postLog]

/-- Witness for C8 (amended): on a store with the default tenant already
materialised, an unknown type changes nothing, and an event type dispatches
to addEvent on the resolved tenant's entry. -/
theorem post_log_dispatch_witness :
    lookupTenant [("default", initState 3)] (resolveAdminTenant reqAnon) =
      some (initState 3) ∧
    (plainLogBody (some "bogus")).type ∉ ([some "event", some "error", some "usage",
      some "metric", some "conversation"] : List (Option String)) ∧
    postLog 7 reqAnon (plainLogBody (some "bogus")) [("default", initState 3)] =
      ({ ok := true }, [("default", initState 3)]) ∧
    lookupTenant
        (postLog 7 reqAnon (plainLogBody (some "event")) [("default", initState 3)]).2
        (resolveAdminTenant reqAnon) =
      some (addEvent 7
        (getTenantState 7 [("default", initState 3)] (resolveAdminTenant reqAnon)).1
        none none) :=
  ⟨by decide, by decide,
    post_log_dispatch.1 7 reqAnon (plainLogBody (some "bogus")) [("default", initState 3)]
      (initState 3) (by decide) (by decide),
    post_log_dispatch.2.1 7 reqAnon (plainLogBody (some "event")) [("default", initState 3)]
      rfl⟩

/-- Usage payload with a present-but-zero costUSD and a nonzero cost. -/
def usagePayloadZeroCost : UsagePayload :=
  { emptyUsagePayload with costUSD := some 0, cost := some 5 }

/-- Counterexample for C9: on a payload with costUSD present and equal to 0
and cost 5, the claimed first-present rule would store costUSD 0, but
addUsage evaluates `costUSD || cost || 0` and stores 5 - while the breakdown
total, which does use the nullish chain, stores 0 from the same payload. -/
theorem add_usage_cost_counterexample :
    (normalizeUsage 0 usagePayloadZeroCost).costUSD = 5 ∧
    (specNormalizeUsage 0 usagePayloadZeroCost).costUSD = 0 ∧
    (normalizeUsage 0 usagePayloadZeroCost).breakdown.total = 0 ∧
    ((addUsage 0 (initState 0) (some usagePayloadZeroCost)).usages.head?.map
      UsageRec.costUSD) = some 5 := by
  exact ⟨by decide, by decide, by decide, by decide⟩

/-- Lemma: the JS falsy fallback to 0 agrees with the nullish default 0 on
numbers (0 falls through to 0 either way). -/
theorem jsOrInt_zero (a : Option Int) : jsOrInt a 0 = a.getD 0 := by
  cases a with
  | none => rfl
  | some v => by_cases h : v = 0 <;> simp [jsOrInt, h]

/-- C9 (amended): for every usage payload (including a missing one), addUsage
stores a single normalized record whose breakdown has exactly the keys
promptUSD, completionUSD, cachedUSD, total, each taking the first present
(non-nullish) of its accepted source fields with default 0 as claimed; token
counts default to 0; costUSD however takes the first truthy of the payload
costUSD, then cost, then 0 (JS falsy fallback: a present-but-zero costUSD
falls through to cost); the record plus period Current replaces the current
usage and is prepended to the bounded history. -/
theorem add_usage_normalization :
    ∀ (now : Nat) (st : TenantState) (usage : Option UsagePayload),
      (addUsage now st usage).usage =
        .record (normalizeUsage now (usage.getD emptyUsagePayload)) ∧
      (addUsage now st usage).usages =
        (normalizeUsage now (usage.getD emptyUsagePayload) :: st.usages).take 100 ∧
      (normalizeUsage now (usage.getD emptyUsagePayload)).breakdown =
        (specNormalizeUsage now (usage.getD emptyUsagePayload)).breakdown ∧
      (normalizeUsage now (usage.getD emptyUsagePayload)).prompt_tokens =
        (usage.getD emptyUsagePayload).prompt_tokens.getD 0 ∧
      (normalizeUsage now (usage.getD emptyUsagePayload)).completion_tokens =
        (usage.getD emptyUsagePayload).completion_tokens.getD 0 ∧
      (normalizeUsage now (usage.getD emptyUsagePayload)).cached_tokens =
        (usage.getD emptyUsagePayload).cached_tokens.getD 0 ∧
      (normalizeUsage now (usage.getD emptyUsagePayload)).costUSD =
        jsOrInt (usage.getD emptyUsagePayload).costUSD
          (jsOrInt (usage.getD emptyUsagePayload).cost 0) ∧
      (normalizeUsage now (usage.getD emptyUsagePayload)).model =
        (usage.getD emptyUsagePayload).model ∧
      (normalizeUsage now (usage.getD emptyUsagePayload)).user =
        (usage.getD emptyUsagePayload).user ∧
      (normalizeUsage now (usage.getD emptyUsagePayload)).at_ = now := by
  intro now st usage
  exact ⟨rfl, rfl, rfl, jsOrInt_zero _, jsOrInt_zero _, jsOrInt_zero _, rfl, rfl, rfl, rfl⟩

/-- Counterexample for C10: CUSTOMER_KEY is sekret and the x-customer-key
header equals it, so the claim admits the request; but the key query
parameter is present and wrong, and the gate compares only
`query key || header`, so it answers 401 Unauthorized. -/
theorem gate_header_counterexample :
    gate (some "sekret") (some "wrong") (some "sekret") = .unauthorized ∧
    specGateAdmits (some "sekret") (some "wrong") (some "sekret") = true := by
  exact ⟨by decide, by decide⟩

/-- C10 (amended): with CUSTOMER_KEY falsy (unset, or set to the empty
string) the gate admits every request regardless of any key supplied; with a
non-empty CUSTOMER_KEY the gate compares the single value
`query key || header` - the query parameter when truthy, otherwise the
header - and admits exactly when that value equals CUSTOMER_KEY, answering
401 Unauthorized otherwise. -/
theorem gate_first_truthy :
    (∀ qk hk, gate none qk hk = .next) ∧
    (∀ qk hk, gate (some "") qk hk = .next) ∧
    (∀ (k : String) (qk hk : Option String), k ≠ "" →
        (gate (some k) qk hk = .next ↔ (if truthyStr qk then qk else hk) = some k)) ∧
    (∀ (k : String) (qk hk : Option String), k ≠ "" →
        (if truthyStr qk then qk else hk) ≠ some k →
        gate (some k) qk hk = .unauthorized) := by
  refine ⟨?_, ?_, ?_, ?_⟩
  · intro qk hk
    rfl
  · intro qk hk
    rfl
  · intro k qk hk hk0
    have ht : truthyStr (some k) = true := by simp [truthyStr, hk0]
    simp only [gate, ht, Bool.not_true, Bool.false_eq_true, if_false]
    split <;> simp_all
  · intro k qk hk hk0 hne
    have ht : truthyStr (some k) = true := by simp [truthyStr, hk0]
    simp [gate, ht, hne]

/-- Witness for C10 (amended): the unset and empty-key cases admit; with the
key set, a matching header (and no query key) admits, while a wrong truthy
query key masks a matching header and is rejected. -/
theorem gate_first_truthy_witness :
    gate none (some "x") none = .next ∧
    gate (some "") none (some "y") = .next ∧
    (("sekret" : String) ≠ "" ∧
      (gate (some "sekret") none (some "sekret") = .next ↔
        (if truthyStr none then none else some "sekret") = some "sekret")) ∧
    (("sekret" : String) ≠ "" ∧
      (if truthyStr (some "wrong") then some "wrong" else some "sekret") ≠ some "sekret" ∧
      gate (some "sekret") (some "wrong") (some "sekret") = .unauthorized) :=
  ⟨gate_first_truthy.1 (some "x") none,
    gate_first_truthy.2.1 none (some "y"),
    ⟨by decide, gate_first_truthy.2.2.1 "sekret" none (some "sekret") (by decide)⟩,
    ⟨by decide, by decide,
      gate_first_truthy.2.2.2 "sekret" (some "wrong") (some "sekret") (by decide) (by decide)⟩⟩

end AdminPanel
